import Mathlib

/-!
Verification of `components/server/src/websocket/websocket-connection-manager.ts`.

This file gives a shallow embedding of the identity resolver
(`ClientMetadata.from`), the endpoint bookkeeping of
`WebsocketClientContext`, the client-context registry of
`WebsocketConnectionManager` (modelled as a state machine over connection
open/close actions), and the per-call interceptor pipeline of
`GitpodJsonRpcProxyFactory.onRequest`, together with theorems settling the
specification claims about them.
-/

namespace GitpodWs

/-- WebsocketClientType from the source: "browser" | "go-client" | "vs-code". -/
inductive WebsocketClientType
  | browser
  | goClient
  | vsCode
  deriving DecidableEq

/-- WebsocketAuthenticationLevel from the source: "user" | "session" | "anonymous". -/
inductive WebsocketAuthenticationLevel
  | user
  | session
  | anonymous
  deriving DecidableEq

/-- The ClientMetadata record of the source. Optional string fields model
TypeScript `string | undefined`. -/
structure ClientMetadata where
  id : String
  authLevel : WebsocketAuthenticationLevel
  sessionId : Option String
  userId : Option String
  type : Option WebsocketClientType
  deriving DecidableEq

/-- JavaScript truthiness of a `string | undefined` value: `undefined` and the
empty string are falsy, every other string is truthy. The source tests
`if (userId)` and `else if (sessionId)` with exactly this semantics. -/
def jsTruthyStr : Option String → Bool
  | none => false
  | some s => s != ""

/-- Embedding of `ClientMetadata.from(userId, sessionId, type)`:
starts from `id = "anonymous"`, `authLevel = "anonymous"`, overrides with the
user id when `userId` is truthy, else with `"session-" + sessionId` when
`sessionId` is truthy, and returns the record carrying the raw inputs along.
(Named `fromParts` because `from` is a reserved word in Lean.) -/
def ClientMetadata.fromParts (userId : Option String) (sessionId : Option String)
    (type : Option WebsocketClientType) : ClientMetadata :=
  if jsTruthyStr userId then
    { id := userId.getD "", authLevel := .user,
      sessionId := sessionId, userId := userId, type := type }
  else if jsTruthyStr sessionId then
    { id := "session-" ++ sessionId.getD "", authLevel := .session,
      sessionId := sessionId, userId := userId, type := type }
  else
    { id := "anonymous", authLevel := .anonymous,
      sessionId := sessionId, userId := userId, type := type }

/-- JavaScript `Array.prototype.findIndex` over a list of endpoint uuids,
returning `none` for the source's `-1` sentinel. -/
def findIndex (p : Nat → Bool) : List Nat → Option Nat
  | [] => none
  | a :: as =>
    if p a then some 0
    else (findIndex p as).map (· + 1)

/-- Embedding of `WebsocketClientContext.removeEndpoint(server)`. A
`GitpodServerImpl` endpoint is identified by its `uuid` (the source compares
`s.uuid === server.uuid`), so the endpoint list is a list of uuids.
The source runs `this.servers.splice(index)` when `findIndex` succeeds:
JavaScript `splice` with the delete count omitted removes every element from
`index` to the end of the array, which leaves exactly the first `index`
elements. A missing uuid (index `-1`) leaves the list untouched. -/
def removeEndpoint (servers : List Nat) (uuid : Nat) : List Nat :=
  match findIndex (fun s => s == uuid) servers with
  | some index => servers.take index
  | none => servers

/-- State of a `WebsocketConnectionManager` together with the client-context
objects reachable from registered close handlers. Context objects are named
by handles allocated from `nextCtx`; `registry` is the `contexts : Map` of the
source (a TypeScript `Map` holds at most one value per key, hence a partial
function), `client` gives each context object's `clientMetadata.id`, and
`servers` each context object's endpoint list. `openConns` records, for every
connection whose `onDidCloseConnection` callback is still pending, the
endpoint uuid and the context object the callback captured. `createdEvents`
and `closedEvents` count emissions of `EVENT_CLIENT_CONTEXT_CREATED` and
`EVENT_CLIENT_CONTEXT_CLOSED`. -/
structure ManagerState where
  registry : String → Option Nat
  client : Nat → String
  servers : Nat → List Nat
  openConns : List (Nat × Nat)
  nextCtx : Nat
  nextUuid : Nat
  createdEvents : Nat
  closedEvents : Nat

/-- The manager as constructed: empty registry, no connections, no events. -/
def initState : ManagerState where
  registry := fun _ => none
  client := fun _ => ""
  servers := fun _ => []
  openConns := []
  nextCtx := 0
  nextUuid := 0
  createdEvents := 0
  closedEvents := 0

/-- Embedding of `WebsocketConnectionManager.getOrCreateClientContext`: return
the registry's context for the resolved id when present; otherwise allocate a
fresh context object with an empty endpoint list, store it under the id and
emit `EVENT_CLIENT_CONTEXT_CREATED`. -/
def getOrCreateClientContext (id : String) (s : ManagerState) : ManagerState × Nat :=
  match s.registry id with
  | some c => (s, c)
  | none =>
    ({ s with
        registry := fun k => if k = id then some s.nextCtx else s.registry k,
        client := fun h => if h = s.nextCtx then id else s.client h,
        servers := fun h => if h = s.nextCtx then [] else s.servers h,
        nextCtx := s.nextCtx + 1,
        createdEvents := s.createdEvents + 1 }, s.nextCtx)

/-- Embedding of the registry-relevant part of
`WebsocketConnectionManager.createProxyTarget` for a request resolving to
client id `id`: get or create the client context, construct a fresh
`GitpodServerImpl` (a fresh uuid), register the close handler capturing this
context and this server, and `addEndpoint` the server (a push onto the
context's endpoint list). Returns the new endpoint's uuid. -/
def openConn (id : String) (s : ManagerState) : ManagerState × Nat :=
  let r := getOrCreateClientContext id s
  let s1 := r.1
  let c := r.2
  let u := s1.nextUuid
  ({ s1 with
      nextUuid := s1.nextUuid + 1,
      openConns := (u, c) :: s1.openConns,
      servers := fun h => if h = c then s1.servers c ++ [u] else s1.servers h }, u)

/-- Embedding of the `onDidCloseConnection` callback registered in
`createProxyTarget`, fired when connection `u` closes: remove the endpoint
from the captured context via `removeEndpoint`; if the captured context then
has no endpoints left, delete the registry entry under the captured context's
client id and emit `EVENT_CLIENT_CONTEXT_CLOSED`. Closing a uuid with no
pending callback does nothing. -/
def closeConn (u : Nat) (s : ManagerState) : ManagerState :=
  match s.openConns.find? (fun p => p.1 == u) with
  | none => s
  | some conn =>
    let c := conn.2
    let s1 := { s with openConns := s.openConns.filter (fun p => p.1 != u) }
    let ns := removeEndpoint (s1.servers c) u
    let s2 := { s1 with servers := fun h => if h = c then ns else s1.servers h }
    if ns.isEmpty then
      { s2 with
          registry := fun k => if k = s2.client c then none else s2.registry k,
          closedEvents := s2.closedEvents + 1 }
    else s2

/-- A connection-lifecycle action observed by the manager. -/
inductive Action
  | connect (id : String)
  | disconnect (uuid : Nat)
  deriving DecidableEq

/-- One manager transition. -/
def step (s : ManagerState) : Action → ManagerState
  | .connect id => (openConn id s).1
  | .disconnect u => closeConn u s

/-- Run a sequence of lifecycle actions. -/
def run : ManagerState → List Action → ManagerState
  | s, [] => s
  | s, a :: as => run (step s a) as

/-- Endpoints currently registered for an identity: the endpoint list of the
registry's context for that id, empty when the registry has no entry. -/
def registeredEndpoints (s : ManagerState) (id : String) : List Nat :=
  match s.registry id with
  | some c => s.servers c
  | none => []

/-- Number of client contexts the registry holds for an identity. -/
def contextCount (s : ManagerState) (id : String) : Nat :=
  match s.registry id with
  | some _ => 1
  | none => 0

namespace ErrorCodes

/-- Modelled from the spec: the error-code constants live in
`@gitpod/gitpod-protocol/lib/messaging/error`, which is part of this
repository but not under `src/`; the spec names the rate-limit rejection
`RateLimited` (the source throws `ErrorCodes.TOO_MANY_REQUESTS`). -/
def TOO_MANY_REQUESTS : Nat := 429

/-- Modelled from the spec: `ErrorCodes.PERMISSION_DENIED` from the external
`gitpod-protocol` messaging module (the spec's `PermissionDenied`). -/
def PERMISSION_DENIED : Nat := 403

end ErrorCodes

/-- Result of `this.rateLimiter.consume(method)` for one call: it resolves,
or rejects with a rejection object carrying `msBeforeNext`, or rejects with a
value that is an `instanceof Error` (a limiter malfunction). -/
inductive RateLimiterOutcome
  | ok
  | rejected (msBeforeNext : Nat)
  | limiterError (message : String)
  deriving DecidableEq

/-- Outcome of the dispatched backend-handler method
`this.target[method](ctx, ...args)`: a value, a thrown `ResponseError`
(a structured application error), or a thrown non-`ResponseError` fault. -/
inductive HandlerOutcome (α : Type)
  | success (value : α)
  | throwResponseError (code : Nat) (message : String) (data : Option String)
  | throwError (message : String)
  deriving DecidableEq

/-- A value thrown inside the pipeline: a `ResponseError(code, message, data)`
(`data` holds the Retry-After header value when present) or any other thrown
error, carried verbatim. -/
inductive Thrown
  | response (code : Nat) (message : String) (data : Option String)
  | raw (message : String)
  deriving DecidableEq

/-- What the promise returned by `onRequest` does: fulfill with the handler's
value, or reject with the thrown value. -/
inductive CallResult (α : Type)
  | value (v : α)
  | error (t : Thrown)
  deriving DecidableEq

/-- Observable side effects of one `onRequest` run. `handlerInvoked` records
whether dispatch `this.target[method](...)` happened; `accessChecked` whether
`accessGuard.canAccess` was consulted; `spanFinished` whether the per-call
trace span's `finish()` ran; `statusCode` the code recorded by
`increaseApiCallCounter`; `serverLoggedDetail` the original cause logged
server-side with full detail (`log.error`) for unexpected faults. -/
structure Effects where
  handlerInvoked : Bool
  accessChecked : Bool
  spanFinished : Bool
  statusCode : Option Nat
  serverLoggedDetail : Option String
  deriving DecidableEq

/-- The Retry-After header value of the rate-limit `ResponseError`, from the
source expression `String(Math.round(rlRejected.msBeforeNext / 1000)) || 1`.
`Math.round` on a non-negative number rounds half up, hence
`(ms + 500) / 1000` in natural division. `String` of a number is never the
empty string, so the `|| 1` fallback (which would substitute the number 1)
can only fire on an empty string; it is embedded as the string "1". -/
def retryAfterHeader (msBeforeNext : Nat) : String :=
  let s := toString ((msBeforeNext + 500) / 1000)
  if s = "" then "1" else s

/-- The `try` block of `GitpodJsonRpcProxyFactory.onRequest` after the span is
opened: rate limiting (a limiter `Error` is logged and rethrown raw; a quota
rejection becomes `ResponseError(TOO_MANY_REQUESTS, "too many requests")` with
the Retry-After datum), then the access guard (`ResponseError(PERMISSION_DENIED,
"Request <method> is not allowed")` on refusal), then dispatch. Returns the
result or thrown value together with the handler-invoked and access-checked
flags. -/
def tryBody {α : Type} (rl : RateLimiterOutcome) (canAccess : String → Bool)
    (handler : HandlerOutcome α) (method : String) :
    CallResult α × Bool × Bool :=
  match rl with
  | .limiterError m => (.error (.raw m), false, false)
  | .rejected ms =>
    (.error (.response ErrorCodes.TOO_MANY_REQUESTS "too many requests"
      (some (retryAfterHeader ms))), false, false)
  | .ok =>
    if !(canAccess method) then
      (.error (.response ErrorCodes.PERMISSION_DENIED
        ("Request " ++ method ++ " is not allowed") none), false, true)
    else
      match handler with
      | .success v => (.value v, true, true)
      | .throwResponseError c m d => (.error (.response c m d), true, true)
      | .throwError m => (.error (.raw m), true, true)

/-- The `catch`/`finally` stages of `onRequest` applied to the `try` block's
outcome. On success the 200 counter is bumped and the value returned. A thrown
`ResponseError` bumps the counter with its own code and is rethrown verbatim.
Any other thrown value is logged server-side with full detail, a fresh
`ResponseError(500, "internal server error")` is recorded in the metrics
counter and the trace, and then the source executes `throw e`, rethrowing the
ORIGINAL value. The `finally` block closes the span on every path. -/
def finishCall {α : Type} : CallResult α × Bool × Bool → CallResult α × Effects
  | (.value v, invoked, checked) =>
    (.value v,
     { handlerInvoked := invoked, accessChecked := checked, spanFinished := true,
       statusCode := some 200, serverLoggedDetail := none })
  | (.error (.response c m d), invoked, checked) =>
    (.error (.response c m d),
     { handlerInvoked := invoked, accessChecked := checked, spanFinished := true,
       statusCode := some c, serverLoggedDetail := none })
  | (.error (.raw m), invoked, checked) =>
    (.error (.raw m),
     { handlerInvoked := invoked, accessChecked := checked, spanFinished := true,
       statusCode := some 500, serverLoggedDetail := some m })

/-- Embedding of `GitpodJsonRpcProxyFactory.onRequest(method, ...args)` for
one call, parameterized by what the rate limiter, the access guard and the
backend handler do on this call. -/
def onRequest {α : Type} (rl : RateLimiterOutcome) (canAccess : String → Bool)
    (handler : HandlerOutcome α) (method : String) : CallResult α × Effects :=
  finishCall (tryBody rl canAccess handler method)

/-- The rate limiter built by
`GitpodJsonRpcConnectionHandler.createRateLimiter(clientId)`: both its `user`
field and the key passed to `UserRateLimiter.instance(...).consume(clientId,
method)` are the resolved client id. -/
structure RateLimiterHandle where
  user : String
  consumeKey : String
  deriving DecidableEq

/-- Embedding of `createRateLimiter`. -/
def createRateLimiter (clientId : String) : RateLimiterHandle :=
  { user := clientId, consumeKey := clientId }

/-- Registry invariant: every context the registry holds has a non-empty
endpoint list, is filed under its own client id, and was allocated below the
allocation counter. -/
def Inv (s : ManagerState) : Prop :=
  ∀ id c, s.registry id = some c →
    s.servers c ≠ [] ∧ s.client c = id ∧ c < s.nextCtx

/-- The initial manager satisfies the registry invariant vacuously. -/
lemma inv_initState : Inv initState := by
  intro id c h
  simp [initState] at h

/-- Opening a connection preserves the registry invariant. -/
lemma inv_openConn (id : String) (s : ManagerState) (hs : Inv s) :
    Inv (openConn id s).1 := by
  cases hreg : s.registry id with
  | some c0 =>
    intro id' c' hr
    have hr' : s.registry id' = some c' := by
      simpa [openConn, getOrCreateClientContext, hreg] using hr
    obtain ⟨hne, hcl, hlt⟩ := hs id' c' hr'
    refine ⟨?_, ?_, ?_⟩
    · by_cases hc : c' = c0
      · subst hc
        simp [openConn, getOrCreateClientContext, hreg]
      · simpa [openConn, getOrCreateClientContext, hreg, hc] using hne
    · simpa [openConn, getOrCreateClientContext, hreg] using hcl
    · simpa [openConn, getOrCreateClientContext, hreg] using hlt
  | none =>
    intro id' c' hr
    have hr' : (if id' = id then some s.nextCtx else s.registry id') = some c' := by
      simpa [openConn, getOrCreateClientContext, hreg] using hr
    by_cases hid : id' = id
    · have hc : c' = s.nextCtx := by
        simp [hid] at hr'
        omega
      subst hc
      refine ⟨?_, ?_, ?_⟩
      · simp [openConn, getOrCreateClientContext, hreg]
      · simp [openConn, getOrCreateClientContext, hreg, hid]
      · simp [openConn, getOrCreateClientContext, hreg]
    · have hr'' : s.registry id' = some c' := by simpa [hid] using hr'
      obtain ⟨hne, hcl, hlt⟩ := hs id' c' hr''
      have hcne : c' ≠ s.nextCtx := Nat.ne_of_lt hlt
      refine ⟨?_, ?_, ?_⟩
      · simpa [openConn, getOrCreateClientContext, hreg, hcne] using hne
      · simpa [openConn, getOrCreateClientContext, hreg, hcne] using hcl
      · have : c' < s.nextCtx + 1 := Nat.lt_succ_of_lt hlt
        simpa [openConn, getOrCreateClientContext, hreg] using this

/-- Closing a connection preserves the registry invariant. -/
lemma inv_closeConn (u : Nat) (s : ManagerState) (hs : Inv s) :
    Inv (closeConn u s) := by
  cases hfind : s.openConns.find? (fun p => p.1 == u) with
  | none =>
    intro id' c' hr
    have hr' : s.registry id' = some c' := by
      simpa [closeConn, hfind] using hr
    simpa [closeConn, hfind] using hs id' c' hr'
  | some conn =>
    by_cases hempty : (removeEndpoint (s.servers conn.2) u).isEmpty
    · intro id' c' hr
      have hr' : (if id' = s.client conn.2 then none else s.registry id') = some c' := by
        simpa [closeConn, hfind, hempty] using hr
      by_cases hid : id' = s.client conn.2
      · simp [hid] at hr'
      · have hr'' : s.registry id' = some c' := by simpa [hid] using hr'
        obtain ⟨hne, hcl, hlt⟩ := hs id' c' hr''
        have hcne : c' ≠ conn.2 := by
          intro hcc
          exact hid (by rw [← hcl, hcc])
        refine ⟨?_, ?_, ?_⟩
        · simpa [closeConn, hfind, hempty, hcne] using hne
        · simpa [closeConn, hfind, hempty, hcne] using hcl
        · simpa [closeConn, hfind, hempty] using hlt
    · intro id' c' hr
      have hr' : s.registry id' = some c' := by
        simpa [closeConn, hfind, hempty] using hr
      obtain ⟨hne, hcl, hlt⟩ := hs id' c' hr'
      have hns : removeEndpoint (s.servers conn.2) u ≠ [] := by
        intro hnil
        simp [hnil] at hempty
      refine ⟨?_, ?_, ?_⟩
      · by_cases hc : c' = conn.2
        · subst hc
          simpa [closeConn, hfind, hempty] using hns
        · simpa [closeConn, hfind, hempty, hc] using hne
      · simpa [closeConn, hfind, hempty] using hcl
      · simpa [closeConn, hfind, hempty] using hlt

/-- Every lifecycle action preserves the registry invariant. -/
lemma inv_step (s : ManagerState) (a : Action) (hs : Inv s) : Inv (step s a) := by
  cases a with
  | connect id => exact inv_openConn id s hs
  | disconnect u => exact inv_closeConn u s hs

/-- Every run of lifecycle actions preserves the registry invariant. -/
lemma inv_run (as : List Action) (s : ManagerState) (hs : Inv s) : Inv (run s as) := by
  induction as generalizing s with
  | nil => exact hs
  | cons a as ih => exact ih (step s a) (inv_step s a hs)

/-- A list whose elements all fail the predicate has no found index. -/
lemma findIndex_eq_none (p : Nat → Bool) :
    ∀ l : List Nat, (∀ s ∈ l, p s = false) → findIndex p l = none
  | [], _ => rfl
  | a :: as, h => by
    have ha : p a = false := h a (List.mem_cons_self a as)
    have has : findIndex p as = none :=
      findIndex_eq_none p as fun s hs => h s (List.mem_cons_of_mem a hs)
    simp [findIndex, ha, has]

/-- C1: identity u1 opens connection A (uuid 0) and then connection B
(uuid 1); the registry then holds one context (handle 0) with both endpoints.
The claim says closing A removes only A's endpoint, leaves the context in the
registry, and that closing B later fires "context closed" exactly once.
Instead, `removeEndpoint`'s `splice(index)` (no delete count) erases A's
endpoint AND every endpoint after it, so closing A empties the context's
endpoint list, deletes the context from the registry and fires
`EVENT_CLIENT_CONTEXT_CLOSED` already; closing B then fires it a second time. -/
theorem c1_close_first_connection_evicts_context :
    (run initState [.connect "u1", .connect "u1"]).registry "u1" = some 0
    ∧ (run initState [.connect "u1", .connect "u1"]).servers 0 = [0, 1]
    ∧ (run initState [.connect "u1", .connect "u1", .disconnect 0]).servers 0 = []
    ∧ (run initState [.connect "u1", .connect "u1", .disconnect 0]).registry "u1" = none
    ∧ (run initState [.connect "u1", .connect "u1", .disconnect 0]).closedEvents = 1
    ∧ (run initState
        [.connect "u1", .connect "u1", .disconnect 0, .disconnect 1]).closedEvents = 2 := by
  decide

/-- C2: the claim says an unexpected fault — thrown by the handler during
dispatch, or an `Error` raised by the rate limiter — reaches the caller as a
generic `InternalError` (code 500). The code logs the fault with full detail
and records a 500 in the metrics counter, but its catch block ends in
`throw e`, rethrowing the ORIGINAL value, so the raw fault is what leaves the
pipeline in both cases. -/
theorem c2_raw_fault_reaches_caller :
    (onRequest RateLimiterOutcome.ok (fun _ => true)
        (HandlerOutcome.throwError "boom") "getWorkspace" : CallResult Nat × Effects)
      = (.error (.raw "boom"),
         { handlerInvoked := true, accessChecked := true, spanFinished := true,
           statusCode := some 500, serverLoggedDetail := some "boom" })
    ∧ (onRequest RateLimiterOutcome.ok (fun _ => true)
        (HandlerOutcome.throwError "boom") "getWorkspace" : CallResult Nat × Effects).1
      ≠ CallResult.error (.response 500 "internal server error" none)
    ∧ (onRequest (RateLimiterOutcome.limiterError "limiter down") (fun _ => true)
        (HandlerOutcome.success 7) "getWorkspace" : CallResult Nat × Effects)
      = (.error (.raw "limiter down"),
         { handlerInvoked := false, accessChecked := false, spanFinished := true,
           statusCode := some 500, serverLoggedDetail := some "limiter down" }) := by
  refine ⟨rfl, ?_, rfl⟩
  decide

/-- C3: whenever the rate limiter rejects the call with a quota rejection, the
backend handler is never invoked and the access guard is never consulted
(dispatch and authorization stages are skipped), and the caller receives the
`ResponseError` with code `TOO_MANY_REQUESTS` — for every access guard, every
handler behaviour and every method. -/
theorem c3_rate_limited_skips_dispatch {α : Type} (ms : Nat)
    (canAccess : String → Bool) (handler : HandlerOutcome α) (method : String) :
    (onRequest (.rejected ms) canAccess handler method).1
      = .error (.response ErrorCodes.TOO_MANY_REQUESTS "too many requests"
          (some (retryAfterHeader ms)))
    ∧ (onRequest (.rejected ms) canAccess handler method).2.handlerInvoked = false
    ∧ (onRequest (.rejected ms) canAccess handler method).2.accessChecked = false :=
  ⟨rfl, rfl, rfl⟩

/-- C4: the claim says the Retry-After hint is `round(msBeforeNext / 1000)`
and always at least 1. The rounding part holds, but the minimum does not: the
source's fallback `String(Math.round(ms / 1000)) || 1` is dead because
`String(0)` is the non-empty (hence truthy) string "0", so every rejection
with `msBeforeNext < 500` is delivered with Retry-After "0". -/
theorem c4_retry_after_can_be_zero :
    (onRequest (RateLimiterOutcome.rejected 0) (fun _ => true)
        (HandlerOutcome.success 0) "getWorkspace" : CallResult Nat × Effects).1
      = CallResult.error (.response ErrorCodes.TOO_MANY_REQUESTS "too many requests"
          (some "0"))
    ∧ retryAfterHeader 0 = "0"
    ∧ retryAfterHeader 499 = "0"
    ∧ retryAfterHeader 500 = "1"
    ∧ retryAfterHeader 1500 = "2" := by
  refine ⟨?_, ?_, ?_, ?_, ?_⟩ <;> decide

/-- C5: if the access guard's `canAccess(method)` is false on a call that
reaches the authorization stage, the handler is never invoked and the caller
receives the `PERMISSION_DENIED` `ResponseError` naming the method; and a call
that passes rate limiting and authorization and whose handler returns a value
delivers exactly that value, unwrapped, with a 200 recorded. -/
theorem c5_access_denied_and_value_passthrough {α : Type} (canAccess : String → Bool)
    (handler : HandlerOutcome α) (method : String) (v : α) :
    (canAccess method = false →
      (onRequest .ok canAccess handler method).1
        = .error (.response ErrorCodes.PERMISSION_DENIED
            ("Request " ++ method ++ " is not allowed") none)
      ∧ (onRequest .ok canAccess handler method).2.handlerInvoked = false)
    ∧ (canAccess method = true →
      onRequest .ok canAccess (.success v) method
        = (.value v,
           { handlerInvoked := true, accessChecked := true, spanFinished := true,
             statusCode := some 200, serverLoggedDetail := none })) := by
  constructor
  · intro hdeny
    constructor
    · simp [onRequest, tryBody, finishCall, hdeny]
    · simp [onRequest, tryBody, finishCall, hdeny]
  · intro hallow
    simp [onRequest, tryBody, finishCall, hallow]

/-- Witness for C5 at a concrete guard, handler and method. -/
theorem c5_access_denied_and_value_passthrough_witness :
    ((onRequest .ok (fun _ => false) (HandlerOutcome.success 3) "getWorkspace").1
        = CallResult.error (.response ErrorCodes.PERMISSION_DENIED
            "Request getWorkspace is not allowed" none)
      ∧ (onRequest .ok (fun _ => false)
          (HandlerOutcome.success 3) "getWorkspace").2.handlerInvoked = false)
    ∧ onRequest .ok (fun _ => true) (HandlerOutcome.success 3) "getWorkspace"
        = (.value 3,
           { handlerInvoked := true, accessChecked := true, spanFinished := true,
             statusCode := some 200, serverLoggedDetail := none }) :=
  ⟨(c5_access_denied_and_value_passthrough (fun _ => false)
      (HandlerOutcome.success 3) "getWorkspace" 3).1 rfl,
   (c5_access_denied_and_value_passthrough (fun _ => true)
      (HandlerOutcome.success 3) "getWorkspace" 3).2 rfl⟩

/-- C6 counterexample: the claim reads resolution as keying on a user id being
present, but the source tests JavaScript truthiness, so the present-but-empty
user id `""` does not yield `authLevel = User` with `id = ""`; it falls
through to the anonymous branch. -/
theorem c6_empty_user_id_counterexample :
    (ClientMetadata.fromParts (some "") none none).authLevel
        ≠ WebsocketAuthenticationLevel.user
    ∧ (ClientMetadata.fromParts (some "") none none).id = "anonymous"
    ∧ (ClientMetadata.fromParts (some "") (some "") none).authLevel
        ≠ WebsocketAuthenticationLevel.session := by
  decide

/-- C6 (amended): identity resolution is a deterministic total function; a
truthy (present and non-empty) user id yields `{id : userId, authLevel :
user}`; otherwise a truthy session id yields `{id : "session-" ++ sessionId,
authLevel : session}`; otherwise the result is the anonymous identity. -/
theorem c6_identity_resolution (userId sessionId : Option String)
    (type : Option WebsocketClientType) :
    (∀ u : String, userId = some u → u ≠ "" →
      ClientMetadata.fromParts userId sessionId type
        = { id := u, authLevel := .user,
            sessionId := sessionId, userId := userId, type := type })
    ∧ (jsTruthyStr userId = false → ∀ sid : String, sessionId = some sid → sid ≠ "" →
      ClientMetadata.fromParts userId sessionId type
        = { id := "session-" ++ sid, authLevel := .session,
            sessionId := sessionId, userId := userId, type := type })
    ∧ (jsTruthyStr userId = false → jsTruthyStr sessionId = false →
      ClientMetadata.fromParts userId sessionId type
        = { id := "anonymous", authLevel := .anonymous,
            sessionId := sessionId, userId := userId, type := type }) := by
  refine ⟨?_, ?_, ?_⟩
  · intro u hu hne
    subst hu
    simp [ClientMetadata.fromParts, jsTruthyStr, hne]
  · intro hu sid hs hne
    subst hs
    cases userId with
    | none => simp [ClientMetadata.fromParts, jsTruthyStr, hne]
    | some u =>
      have hu' : (u != "") = false := by simpa [jsTruthyStr] using hu
      simp [ClientMetadata.fromParts, jsTruthyStr, hu', hne]
  · intro hu hs
    simp [ClientMetadata.fromParts, hu, hs]

/-- Witness for C6 (amended) at one concrete input per branch. -/
theorem c6_identity_resolution_witness :
    ClientMetadata.fromParts (some "alice") (some "s1") none
      = { id := "alice", authLevel := .user,
          sessionId := some "s1", userId := some "alice", type := none }
    ∧ ClientMetadata.fromParts none (some "s1") none
      = { id := "session-s1", authLevel := .session,
          sessionId := some "s1", userId := none, type := none }
    ∧ ClientMetadata.fromParts none none none
      = { id := "anonymous", authLevel := .anonymous,
          sessionId := none, userId := none, type := none } :=
  ⟨(c6_identity_resolution (some "alice") (some "s1") none).1 "alice" rfl (by decide),
   (c6_identity_resolution none (some "s1") none).2.1 rfl "s1" rfl (by decide),
   (c6_identity_resolution none none none).2.2 rfl rfl⟩

/-- C7: after any sequence of connection opens and closes starting from the
fresh manager, the registry (a map keyed by client id) holds at most one
context per identity, and it holds exactly one iff at least one endpoint is
registered for that identity. -/
theorem c7_registry_at_most_one_context (as : List Action) (id : String) :
    contextCount (run initState as) id ≤ 1
    ∧ (contextCount (run initState as) id = 1
        ↔ registeredEndpoints (run initState as) id ≠ []) := by
  have hinv : Inv (run initState as) := inv_run as initState inv_initState
  cases hreg : (run initState as).registry id with
  | none => simp [contextCount, registeredEndpoints, hreg]
  | some c =>
    have hne := (hinv id c hreg).1
    simp [contextCount, registeredEndpoints, hreg, hne]

/-- Helper: the `finally` clause of the pipeline closes the span on every
outcome of the `try`/`catch` body. -/
lemma finishCall_spanFinished {α : Type} (r : CallResult α × Bool × Bool) :
    (finishCall r).2.spanFinished = true := by
  obtain ⟨res, invoked, checked⟩ := r
  cases res with
  | value v => rfl
  | error t =>
    cases t with
    | response c m d => rfl
    | raw m => rfl

/-- C8: the per-call trace span is closed on every exit path of the pipeline —
success, rate-limit rejection, permission denial, structured application
error, limiter malfunction and unexpected handler fault alike. -/
theorem c8_span_closed_on_every_path {α : Type} (rl : RateLimiterOutcome)
    (canAccess : String → Bool) (handler : HandlerOutcome α) (method : String) :
    (onRequest rl canAccess handler method).2.spanFinished = true :=
  finishCall_spanFinished (tryBody rl canAccess handler method)

/-- C9: removing an endpoint whose uuid matches nothing in the context's
endpoint list leaves the list completely unchanged. -/
theorem c9_remove_absent_uuid_noop (servers : List Nat) (uuid : Nat)
    (h : ∀ s ∈ servers, s ≠ uuid) :
    removeEndpoint servers uuid = servers := by
  have hfind : findIndex (fun s => s == uuid) servers = none := by
    refine findIndex_eq_none _ servers fun s hs => ?_
    simpa using h s hs
  simp [removeEndpoint, hfind]

/-- Witness for C9 on a concrete endpoint list and absent uuid. -/
theorem c9_remove_absent_uuid_noop_witness :
    removeEndpoint [5, 7] 9 = [5, 7] :=
  c9_remove_absent_uuid_noop [5, 7] 9 (by decide)

/-- C10: every connection with neither a user nor a session resolves to the
single id "anonymous" whatever its client type, the rate limiter built for
such a connection consumes under that same shared key, and two anonymous
connections land in one shared registry context (handle 0) holding both
endpoints. -/
theorem c10_anonymous_share_context_and_limiter
    (t1 t2 : Option WebsocketClientType) :
    (ClientMetadata.fromParts none none t1).id = "anonymous"
    ∧ (ClientMetadata.fromParts none none t2).id
        = (ClientMetadata.fromParts none none t1).id
    ∧ (createRateLimiter (ClientMetadata.fromParts none none t1).id).consumeKey
        = (createRateLimiter (ClientMetadata.fromParts none none t2).id).consumeKey
    ∧ (run initState
        [.connect (ClientMetadata.fromParts none none t1).id,
         .connect (ClientMetadata.fromParts none none t2).id]).registry "anonymous"
        = some 0
    ∧ (run initState
        [.connect (ClientMetadata.fromParts none none t1).id,
         .connect (ClientMetadata.fromParts none none t2).id]).servers 0 = [0, 1] := by
  refine ⟨rfl, rfl, rfl, ?_, ?_⟩
  · show (run initState
        [.connect "anonymous", .connect "anonymous"]).registry "anonymous" = some 0
    decide
  · show (run initState
        [.connect "anonymous", .connect "anonymous"]).servers 0 = [0, 1]
    decide

end GitpodWs
